import Mathlib

/-!
Shallow embedding of `rust-vulkan/src/main.rs` (a Vulkan bootstrap
application) and proofs about its device-selection, instance-creation,
diagnostics, logical-device and event-loop logic.

External collaborators (the Vulkan driver, the `vulkano` / `vulkano_win` /
`winit` crates) are modelled as explicit inputs: a physical device is the
list of its queue families' `supports_graphics` flags in index order (the
Vulkan API reports the family count as a `uint32_t`, so a device has fewer
than `2^32` families), the driver's installed layer list is a `List String`,
and the windowing layer's required extension set is a record parameter.
Machine-integer casts (`i as i32`, `i32 as usize` on a 64-bit target) are
modelled exactly, with wrapping.
-/

namespace RustVulkan

/-- Rust `i as i32` for `i : usize`: truncate to 32 bits, read as two's
complement. -/
def i32ofNat (i : Nat) : Int :=
  if i % 2 ^ 32 < 2 ^ 31 then ((i % 2 ^ 32 : Nat) : Int)
  else ((i % 2 ^ 32 : Nat) : Int) - 2 ^ 32

/-- Rust `x as usize` for `x : i32` on a 64-bit target: sign-extend and
reinterpret as unsigned. -/
def usizeOfI32 (x : Int) : Nat :=
  (x % 2 ^ 64).toNat

/-- A physical device, as the list of its queue families'
`supports_graphics` flags in index order. -/
abbrev PhysicalDeviceQF := List Bool

/-- `struct QueueFamilyIndices { graphics_family: i32 }` -/
structure QueueFamilyIndices where
  graphics_family : Int
deriving Repr, DecidableEq

/-- `const NOT_INITIALIZED: i32 = -1;` -/
def QueueFamilyIndices.NOT_INITIALIZED : Int := -1

/-- `QueueFamilyIndices::new()` -/
def QueueFamilyIndices.new : QueueFamilyIndices :=
  { graphics_family := QueueFamilyIndices.NOT_INITIALIZED }

/-- `QueueFamilyIndices::is_complete(&self)` -/
def QueueFamilyIndices.is_complete (self : QueueFamilyIndices) : Bool :=
  self.graphics_family != QueueFamilyIndices.NOT_INITIALIZED

/-- The loop body of `find_queue_families`, instrumented with the number of
queue families the loop examines (loop iterations entered) so that the
short-circuit property is statable. `i` is the enumeration index of the
head of the remaining list. Each iteration unconditionally overwrites
`graphics_family` with `i as i32` when the family supports graphics, then
breaks as soon as `is_complete` holds, exactly as the source loop does. -/
def findQueueFamiliesAux (indices : QueueFamilyIndices) (i : Nat) :
    List Bool → QueueFamilyIndices × Nat
  | [] => (indices, 0)
  | queue_family :: rest =>
    let indices' :=
      if queue_family then { indices with graphics_family := i32ofNat i }
      else indices
    if indices'.is_complete then (indices', 1)
    else
      let (r, n) := findQueueFamiliesAux indices' (i + 1) rest
      (r, n + 1)

/-- `find_queue_families` together with the number of families examined. -/
def findQueueFamiliesCounted (device : PhysicalDeviceQF) :
    QueueFamilyIndices × Nat :=
  findQueueFamiliesAux QueueFamilyIndices.new 0 device

/-- `fn find_queue_families(device: &PhysicalDevice) -> QueueFamilyIndices` -/
def find_queue_families (device : PhysicalDeviceQF) : QueueFamilyIndices :=
  (findQueueFamiliesCounted device).1

/-- `fn is_physical_device_suitable(device: &PhysicalDevice) -> bool` -/
def is_physical_device_suitable (device : PhysicalDeviceQF) : Bool :=
  (find_queue_families device).is_complete

/-- `fn get_physical_device_index(instance: &Arc<Instance>) -> usize`.
The instance's enumeration is the list of physical devices in driver
order; `PhysicalDevice::enumerate(..).find(..)` keeps the first suitable
device and `.index()` is its enumeration position. `none` models the
`.expect("failed to find a suitable GPU!")` panic (`NoSuitableDevice`). -/
def get_physical_device_index (devices : List PhysicalDeviceQF) : Option Nat :=
  (devices.enum.find? (fun p => is_physical_device_suitable p.2)).map Prod.fst

/-- `fn get_graphics_family_from_physical_device(..) -> QueueFamily`.
Computes `find_queue_families`, then looks up
`queue_families().nth(indices.graphics_family as usize)`; the returned
queue family is identified by its index. `none` models the `.unwrap()`
panic when `nth` yields nothing. -/
def get_graphics_family_from_physical_device (physical_device : PhysicalDeviceQF) :
    Option Nat :=
  let indices := find_queue_families physical_device
  let n := usizeOfI32 indices.graphics_family
  if n < physical_device.length then some n else none

/-- The observable content of the `Device::new` request issued by
`create_logical_device`: which physical device, which enabled feature and
extension names, and the requested `(queue family, priority)` pairs. The
priority `1` stands for the exactly-representable `1.0f32`. -/
structure LogicalDeviceRequest where
  physical_device_index : Nat
  features : List String
  extensions : List String
  queue_requests : List (Nat × Nat)
deriving Repr, DecidableEq

/-- `fn create_logical_device(instance, physical_device_index) -> (Device, Queue)`.
`PhysicalDevice::from_index` re-resolves the device from the enumeration
(`none` models its `.unwrap()` panic out of range);
`get_graphics_family_from_physical_device` re-derives the graphics family;
`Features::none()` / `DeviceExtensions::none()` are the empty enabled
sets; `Some((graphics_family, 1.0))` is a one-element queue-request
iterator. Per the driver API (spec section 6), `Device::new` yields one
queue per requested family, and `queues_iter.next().unwrap()` takes the
first; the result pairs the issued request with the family index of the
returned queue. -/
def create_logical_device (devices : List PhysicalDeviceQF)
    (physical_device_index : Nat) : Option (LogicalDeviceRequest × Nat) :=
  match devices.get? physical_device_index with
  | none => none
  | some physical_device =>
    match get_graphics_family_from_physical_device physical_device with
    | none => none
    | some graphics_family =>
      let features : List String := []
      let extensions : List String := []
      let queue_families : List (Nat × Nat) := [(graphics_family, 1)]
      let queues : List Nat := queue_families.map Prod.fst
      match queues.head? with
      | none => none
      | some queue =>
        some ({ physical_device_index := physical_device_index
                features := features
                extensions := extensions
                queue_requests := queue_families }, queue)

/-- `const VALIDATION_LAYERS: &[&str; 1] = &["VK_LAYER_LUNARG_standard_validation"];` -/
def VALIDATION_LAYERS : List String := ["VK_LAYER_LUNARG_standard_validation"]

/-- `ENABLE_VALIDATION_LAYERS`: `true` under `#[cfg(debug_assertions)]`,
`false` under `#[cfg(not(debug_assertions))]` — i.e. it equals the
build-time debug flag. -/
def ENABLE_VALIDATION_LAYERS (debug_assertions : Bool) : Bool :=
  if debug_assertions then true else false

/-- `fn check_validation_layer_support() -> bool`. `driver_layers` is the
layer-name list reported by `layers_list()` (an external driver query). -/
def check_validation_layer_support (driver_layers : List String) : Bool :=
  let validation_layers := driver_layers
  VALIDATION_LAYERS.all (fun layer_name => validation_layers.contains layer_name)

/-- `vulkano::instance::InstanceExtensions`, as the `ext_debug_report` flag
plus the names of the other enabled extensions. -/
structure InstanceExtensions where
  ext_debug_report : Bool
  others : List String
deriving Repr, DecidableEq

/-- `fn get_required_extensions() -> InstanceExtensions`.
`win_required` is `vulkano_win::required_extensions()`, the windowing
layer's mandatory extension set (an external input). -/
def get_required_extensions (enable_validation_layers : Bool)
    (win_required : InstanceExtensions) : InstanceExtensions :=
  let required_extensions := win_required
  if enable_validation_layers then
    { required_extensions with ext_debug_report := true }
  else
    required_extensions

/-- What `init_instance` asks `Instance::new` for: the layer names and the
extension set (the `ApplicationInfo` metadata is fixed and omitted). An
empty `layers` list is the `None` layer argument. -/
structure InstanceRequest where
  layers : List String
  extensions : InstanceExtensions
deriving Repr, DecidableEq

/-- `fn init_instance() -> Arc<Instance>`: which construction path is taken
and what it requests. Whether `Instance::new` itself then succeeds is the
driver's decision (its `.expect` is fatal); the request is the code's
observable behaviour. -/
def init_instance (enable_validation_layers : Bool)
    (driver_layers : List String) (win_required : InstanceExtensions) :
    InstanceRequest :=
  let required_extensions :=
    get_required_extensions enable_validation_layers win_required
  if enable_validation_layers && check_validation_layer_support driver_layers then
    { layers := VALIDATION_LAYERS, extensions := required_extensions }
  else
    { layers := [], extensions := required_extensions }

/-- `vulkano::instance::debug::MessageTypes` -/
structure MessageTypes where
  error : Bool
  warning : Bool
  performance_warning : Bool
  information : Bool
  debug : Bool
deriving Repr, DecidableEq

/-- `fn setup_debug_callback(instance) -> Option<DebugCallback>`.
`driver_accepts` models whether `DebugCallback::new` returns `Ok` (the
`.ok()` call turns a rejection into `None`). A registration is identified
by the message categories it subscribes to. -/
def setup_debug_callback (enable_validation_layers : Bool)
    (driver_accepts : Bool) : Option MessageTypes :=
  if !enable_validation_layers then
    none
  else
    let msg_types : MessageTypes :=
      { error := true
        warning := true
        performance_warning := true
        information := false
        debug := true }
    if driver_accepts then some msg_types else none

/-- A platform event as seen by the `poll_events` closure: either a
window-close request (`Event::WindowEvent { event: WindowEvent::CloseRequested, .. }`)
or anything else. -/
inductive WinEvent where
  | closeRequested
  | other (tag : Nat)
deriving Repr, DecidableEq

/-- One `poll_events` call of `main_loop`: the closure runs once per drained
event, setting `done := true` on a close request and leaving `done`
untouched otherwise. -/
def pollEventsStep (events : List WinEvent) (done : Bool) : Bool :=
  events.foldl
    (fun done event =>
      if event = WinEvent.closeRequested then true else done)
    done

/-- `fn main_loop(&mut self)`, run against a trace of event batches (the
batch drained by the i-th `poll_events` call). Returns the index of the
iteration at which the loop returns, or `none` if the loop is still
running after consuming the whole trace (it would keep polling). -/
def main_loop : List (List WinEvent) → Option Nat
  | [] => none
  | batch :: rest =>
    let done := pollEventsStep batch false
    if done then some 0 else (main_loop rest).map (· + 1)

/-- `const WIDTH: u32 = 800;` -/
def WIDTH : Nat := 800

/-- `const HEIGHT: u32 = 600;` -/
def HEIGHT : Nat := 600

/-- A `winit` window, identified by its builder configuration. -/
structure Window where
  title : String
  width : Nat
  height : Nat
deriving Repr, DecidableEq

/-- A `winit::EventsLoop`. -/
structure EventsLoop where
  id : Nat
deriving Repr, DecidableEq

/-- What `fn init_window() -> EventsLoop` does, as a trace: it constructs an
`EventsLoop`, builds the `"Vulkan"` 800x600 window (the `.build(..)` value
bound to the local `_window_builder`), and returns only the events loop —
the local `Window` is dropped when the function returns. -/
structure InitWindowTrace where
  created_window : Window
  returned : EventsLoop
  dropped_at_return : List Window
deriving Repr, DecidableEq

/-- `fn init_window() -> EventsLoop` (its trace). -/
def init_window : InitWindowTrace :=
  let event_loop : EventsLoop := { id := 0 }
  let window_builder : Window :=
    { title := "Vulkan", width := WIDTH, height := HEIGHT }
  { created_window := window_builder
    returned := event_loop
    dropped_at_return := [window_builder] }

/-- The fields of `struct HelloTriangleApp` retained for the process
lifetime after `init()` (the Vulkan handles are abstracted to the data
this development tracks about them). There is no window field. -/
structure HelloTriangleApp where
  debug_callback : Option MessageTypes
  physical_device_index : Nat
  events_loop : EventsLoop
deriving Repr, DecidableEq

/-! ## Helper lemmas -/

lemma i32ofNat_of_lt {i : Nat} (h : i < 2 ^ 31) : i32ofNat i = (i : Int) := by
  have h32 : i < 2 ^ 32 := lt_trans h (by norm_num)
  unfold i32ofNat
  rw [Nat.mod_eq_of_lt h32, if_pos h]

lemma i32ofNat_ne_neg_one {i : Nat} (h : i < 2 ^ 32 - 1) : i32ofNat i ≠ -1 := by
  have h32 : i < 2 ^ 32 := by omega
  unfold i32ofNat
  rw [Nat.mod_eq_of_lt h32]
  split <;> intro hc <;> omega

lemma is_complete_iff (q : QueueFamilyIndices) :
    q.is_complete = true ↔ q.graphics_family ≠ -1 := by
  simp [QueueFamilyIndices.is_complete, QueueFamilyIndices.NOT_INITIALIZED,
    bne_iff_ne]

lemma new_not_complete : QueueFamilyIndices.new.is_complete = false := by
  simp [QueueFamilyIndices.new, QueueFamilyIndices.is_complete,
    QueueFamilyIndices.NOT_INITIALIZED]

lemma findIdx?_cons_zero {α : Type _} (p : α → Bool) (b : α) (l : List α) :
    List.findIdx? p (b :: l) =
      if p b then some 0 else (List.findIdx? p l).map (· + 1) := by
  rw [List.findIdx?_cons]
  cases hp : p b
  · rw [if_neg (by simp), if_neg (by simp)]
    exact List.findIdx?_succ
  · simp

/-- The instrumented scan, started on any index whose `i32` image is not
`-1` (true of every index the Vulkan API can produce), finds the first
graphics-capable family, examines exactly the families up to and
including it, and leaves the accumulator untouched otherwise. -/
lemma findQueueFamiliesAux_new_eq (l : List Bool) :
    ∀ i : Nat, i + l.length < 2 ^ 32 →
      findQueueFamiliesAux QueueFamilyIndices.new i l =
        match l.findIdx? (fun b => b) with
        | some g => ({ graphics_family := i32ofNat (i + g) }, g + 1)
        | none => (QueueFamilyIndices.new, l.length) := by
  induction l with
  | nil =>
    intro i h
    simp [findQueueFamiliesAux, List.findIdx?_nil]
  | cons b rest ih =>
    intro i h
    have hlen : (b :: rest).length = rest.length + 1 := rfl
    cases b with
    | true =>
      have hne : i32ofNat i ≠ -1 := i32ofNat_ne_neg_one (by rw [hlen] at h; omega)
      have hcomp : QueueFamilyIndices.is_complete { graphics_family := i32ofNat i } = true := by
        rw [is_complete_iff]; exact hne
      simp [findQueueFamiliesAux, findIdx?_cons_zero, hcomp]
    | false =>
      have ih' := ih (i + 1) (by rw [hlen] at h; omega)
      cases hfi : rest.findIdx? (fun b => b) with
      | none =>
        rw [hfi] at ih'
        simp only [] at ih'
        simp [findQueueFamiliesAux, findIdx?_cons_zero, hfi, new_not_complete, ih']
      | some g =>
        rw [hfi] at ih'
        simp only [] at ih'
        have harith : i + 1 + g = i + (g + 1) := by omega
        simp [findQueueFamiliesAux, findIdx?_cons_zero, hfi, new_not_complete,
          ih', harith]

lemma find_queue_families_eq (device : PhysicalDeviceQF)
    (h : device.length < 2 ^ 32) :
    find_queue_families device =
      match device.findIdx? (fun b => b) with
      | some g => { graphics_family := i32ofNat g }
      | none => QueueFamilyIndices.new := by
  unfold find_queue_families findQueueFamiliesCounted
  rw [findQueueFamiliesAux_new_eq device 0 (by omega)]
  cases hfi : device.findIdx? (fun b => b) <;> simp [hfi]

lemma findQueueFamiliesCounted_examined (device : PhysicalDeviceQF)
    (h : device.length < 2 ^ 32) :
    (findQueueFamiliesCounted device).2 =
      match device.findIdx? (fun b => b) with
      | some g => g + 1
      | none => device.length := by
  unfold findQueueFamiliesCounted
  rw [findQueueFamiliesAux_new_eq device 0 (by omega)]
  cases hfi : device.findIdx? (fun b => b) <;> simp [hfi]

/-- On a device with no graphics-capable family the scan changes nothing
and examines every family (no length bound needed). -/
lemma findQueueFamiliesAux_no_graphics (l : List Bool) :
    ∀ i : Nat, l.contains true = false →
      findQueueFamiliesAux QueueFamilyIndices.new i l =
        (QueueFamilyIndices.new, l.length) := by
  induction l with
  | nil => intro i _; simp [findQueueFamiliesAux]
  | cons b rest ih =>
    intro i hcon
    have hb : b = false := by
      cases b
      · rfl
      · simp [List.contains_cons] at hcon
    subst hb
    have hrest : rest.contains true = false := by
      simpa [List.contains_cons] using hcon
    simp [findQueueFamiliesAux, new_not_complete, ih i.succ hrest]

lemma suitable_contains_true {d : PhysicalDeviceQF}
    (h : is_physical_device_suitable d = true) : d.contains true = true := by
  by_contra hc
  have hc' : d.contains true = false := by simpa using hc
  have hnone := findQueueFamiliesAux_no_graphics d 0 hc'
  unfold is_physical_device_suitable find_queue_families
    findQueueFamiliesCounted at h
  rw [hnone] at h
  simp [new_not_complete] at h

lemma find?_enumFrom (l : List PhysicalDeviceQF) :
    ∀ n : Nat,
      ((List.enumFrom n l).find? (fun p => is_physical_device_suitable p.2)).map
          Prod.fst
        = l.findIdx? is_physical_device_suitable n := by
  induction l with
  | nil => intro n; simp [List.findIdx?_nil]
  | cons d rest ih =>
    intro n
    rw [List.enumFrom_cons, List.find?_cons, List.findIdx?_cons]
    cases hs : is_physical_device_suitable d <;> simp [hs, ih]

lemma get_physical_device_index_eq (devices : List PhysicalDeviceQF) :
    get_physical_device_index devices =
      devices.findIdx? is_physical_device_suitable := by
  unfold get_physical_device_index
  have h := find?_enumFrom devices 0
  simpa [List.enum] using h

lemma findIdx?_some_spec {α : Type _} (p : α → Bool) (l : List α) :
    ∀ k : Nat, l.findIdx? p = some k →
      ∃ d, l.get? k = some d ∧ p d = true ∧
        ∀ j, j < k → ∀ e, l.get? j = some e → p e = false := by
  induction l with
  | nil => intro k hk; simp [List.findIdx?_nil] at hk
  | cons a rest ih =>
    intro k hk
    rw [findIdx?_cons_zero] at hk
    cases hp : p a
    · rw [hp] at hk
      simp only [Bool.false_eq_true, if_false] at hk
      cases hfi : rest.findIdx? p with
      | none => rw [hfi] at hk; simp at hk
      | some g =>
        rw [hfi] at hk
        have hk' : k = g + 1 := by simp at hk; omega
        subst hk'
        obtain ⟨d, hd, hpd, hstop⟩ := ih g hfi
        refine ⟨d, by simpa using hd, hpd, ?_⟩
        intro j hj e he
        cases j with
        | zero =>
          have : e = a := by simpa using he.symm
          rw [this]; exact hp
        | succ j' =>
          exact hstop j' (by omega) e (by simpa using he)
    · rw [hp] at hk
      have hk' : k = 0 := by simp at hk; omega
      subst hk'
      exact ⟨a, by simp, hp, by intro j hj; omega⟩

lemma contains_true_findIdx?_isSome {l : List Bool}
    (h : l.contains true = true) :
    ∃ g, l.findIdx? (fun b => b) = some g := by
  cases hfi : l.findIdx? (fun b => b) with
  | some g => exact ⟨g, rfl⟩
  | none =>
    exfalso
    rw [List.findIdx?_eq_none_iff] at hfi
    rw [List.contains_eq_any_beq, List.any_eq_true] at h
    obtain ⟨x, hx, hbx⟩ := h
    have hxf : x = false := by simpa using hfi x hx
    rw [hxf] at hbx
    simp at hbx

lemma find_queue_families_eq_some {device : PhysicalDeviceQF} {g : Nat}
    (h : device.length < 2 ^ 32)
    (hfi : device.findIdx? (fun b => b) = some g) :
    find_queue_families device = { graphics_family := i32ofNat g } := by
  rw [find_queue_families_eq device h, hfi]

lemma find_queue_families_eq_none {device : PhysicalDeviceQF}
    (h : device.length < 2 ^ 32)
    (hfi : device.findIdx? (fun b => b) = none) :
    find_queue_families device = QueueFamilyIndices.new := by
  rw [find_queue_families_eq device h, hfi]

lemma examined_eq_some {device : PhysicalDeviceQF} {g : Nat}
    (h : device.length < 2 ^ 32)
    (hfi : device.findIdx? (fun b => b) = some g) :
    (findQueueFamiliesCounted device).2 = g + 1 := by
  rw [findQueueFamiliesCounted_examined device h, hfi]

lemma examined_eq_none {device : PhysicalDeviceQF}
    (h : device.length < 2 ^ 32)
    (hfi : device.findIdx? (fun b => b) = none) :
    (findQueueFamiliesCounted device).2 = device.length := by
  rw [findQueueFamiliesCounted_examined device h, hfi]

lemma findIdx?_lt_length {l : List Bool} {g : Nat}
    (hfi : l.findIdx? (fun b => b) = some g) : g < l.length :=
  (List.findIdx?_eq_some_iff_findIdx_eq.mp hfi).1

/-! ## Claim theorems -/

/-- Claim C2: `find_queue_families` scans the device's queue families in
index order, records the index of the first family that supports graphics
(as its `i32` image), examines exactly the families up to and including
that one — never any later family — and `is_complete` on the result is
true iff a graphics-capable family was discovered. The hypothesis is the
Vulkan API's `uint32_t` bound on the family count. -/
theorem c2_find_queue_families_scan (device : PhysicalDeviceQF)
    (h : device.length < 2 ^ 32) :
    (∀ g, device.findIdx? (fun b => b) = some g →
        find_queue_families device = { graphics_family := i32ofNat g } ∧
        (findQueueFamiliesCounted device).2 = g + 1)
    ∧ (device.findIdx? (fun b => b) = none →
        find_queue_families device = QueueFamilyIndices.new ∧
        (findQueueFamiliesCounted device).2 = device.length)
    ∧ ((find_queue_families device).is_complete = true ↔
        device.contains true = true) := by
  refine ⟨fun g hfi => ⟨find_queue_families_eq_some h hfi,
    examined_eq_some h hfi⟩,
    fun hfi => ⟨find_queue_families_eq_none h hfi,
      examined_eq_none h hfi⟩, ?_, ?_⟩
  · intro hcomp
    exact suitable_contains_true hcomp
  · intro hcon
    obtain ⟨g, hfi⟩ := contains_true_findIdx?_isSome hcon
    have hg : g < device.length := findIdx?_lt_length hfi
    rw [find_queue_families_eq_some h hfi, is_complete_iff]
    exact i32ofNat_ne_neg_one (by omega)

/-- Claim C2 witness: the device `[false, true]` (graphics support only at
family 1). -/
theorem c2_witness :
    (([false, true] : PhysicalDeviceQF).length < 2 ^ 32) ∧
    ((∀ g, ([false, true] : PhysicalDeviceQF).findIdx? (fun b => b) = some g →
        find_queue_families [false, true] = { graphics_family := i32ofNat g } ∧
        (findQueueFamiliesCounted [false, true]).2 = g + 1)
    ∧ (([false, true] : PhysicalDeviceQF).findIdx? (fun b => b) = none →
        find_queue_families [false, true] = QueueFamilyIndices.new ∧
        (findQueueFamiliesCounted [false, true]).2 =
          ([false, true] : PhysicalDeviceQF).length)
    ∧ ((find_queue_families [false, true]).is_complete = true ↔
        ([false, true] : PhysicalDeviceQF).contains true = true)) :=
  ⟨by decide, c2_find_queue_families_scan [false, true] (by decide)⟩

/-- Claim C1: device selection returns the enumeration index of the first
device whose queue-family scan yields a complete `QueueFamilyIndices`; a
device with no graphics-capable queue family is never selected; with no
suitable device (including an empty enumeration) it fails
(`NoSuitableDevice`, the `expect` panic modelled as `none`) instead of
returning an index. -/
theorem c1_select_first_suitable (devices : List PhysicalDeviceQF) :
    (∀ i, get_physical_device_index devices = some i →
      ∃ d, devices.get? i = some d ∧ is_physical_device_suitable d = true ∧
        d.contains true = true ∧
        ∀ j, j < i → ∀ e, devices.get? j = some e →
          is_physical_device_suitable e = false)
    ∧ (get_physical_device_index devices = none ↔
        ∀ d ∈ devices, is_physical_device_suitable d = false) := by
  constructor
  · intro i hi
    rw [get_physical_device_index_eq] at hi
    obtain ⟨d, hd, hpd, hstop⟩ := findIdx?_some_spec _ _ i hi
    exact ⟨d, hd, hpd, suitable_contains_true hpd, hstop⟩
  · rw [get_physical_device_index_eq]
    exact List.findIdx?_eq_none_iff

/-- Claim C1 witness: two devices, the first with no graphics family, the
second with graphics at family 1; selection returns index 1. -/
theorem c1_witness :
    get_physical_device_index [[false, false], [false, true]] = some 1 ∧
    ∃ d, ([[false, false], [false, true]] : List PhysicalDeviceQF).get? 1 =
        some d ∧
      is_physical_device_suitable d = true ∧ d.contains true = true ∧
      ∀ j, j < 1 → ∀ e,
        ([[false, false], [false, true]] : List PhysicalDeviceQF).get? j =
          some e →
        is_physical_device_suitable e = false :=
  ⟨by decide,
    (c1_select_first_suitable [[false, false], [false, true]]).1 1 (by decide)⟩

lemma get_graphics_family_def (d : PhysicalDeviceQF) :
    get_graphics_family_from_physical_device d =
      if usizeOfI32 (find_queue_families d).graphics_family < d.length
      then some (usizeOfI32 (find_queue_families d).graphics_family)
      else none := rfl

lemma findIdx?_replicate_false_append (n : Nat) (l : List Bool) :
    List.findIdx? (fun b => b) (List.replicate n false ++ l) =
      (List.findIdx? (fun b => b) l).map (· + n) := by
  induction n with
  | zero => simp
  | succ m ih =>
    rw [List.replicate_succ, List.cons_append, findIdx?_cons_zero]
    rw [if_neg (by simp), ih]
    cases hfi : List.findIdx? (fun b => b) l with
    | none => simp [hfi]
    | some a => simp [hfi]; omega

/-- Claim C10 counterexample: a device whose first (and only)
graphics-capable family sits at index `2^31`. The scan records
`2^31 as i32 = -2^31`, which is not `-1`, so the device passes the
suitability predicate; but `-2^31 as usize` sign-extends to
`2^64 - 2^31`, far past the family count, so the `nth(..)` lookup in
`get_graphics_family_from_physical_device` yields nothing and its
`.unwrap()` panics (`none`): the recorded index is negative, the cast is
not lossless, and the panic branch is reachable. -/
theorem c10_counterexample :
    is_physical_device_suitable (List.replicate (2 ^ 31) false ++ [true]) =
      true ∧
    get_graphics_family_from_physical_device
      (List.replicate (2 ^ 31) false ++ [true]) = none := by
  have hlen : (List.replicate (2 ^ 31) false ++ [true]).length = 2 ^ 31 + 1 := by
    rw [List.length_append, List.length_replicate, List.length_cons,
      List.length_nil]
  have h32 : (List.replicate (2 ^ 31) false ++ [true]).length < 2 ^ 32 := by
    rw [hlen]; norm_num
  have hfi : (List.replicate (2 ^ 31) false ++ [true]).findIdx? (fun b => b) =
      some (2 ^ 31) := by
    rw [findIdx?_replicate_false_append]
    norm_num [findIdx?_cons_zero]
  have hfq := find_queue_families_eq_some h32 hfi
  have hi32 : i32ofNat (2 ^ 31) = -(2 ^ 31) := by decide
  rw [hi32] at hfq
  have hfq' : (find_queue_families
      (List.replicate (2 ^ 31) false ++ [true])).graphics_family =
      -(2 ^ 31) := by rw [hfq]
  constructor
  · unfold is_physical_device_suitable
    rw [is_complete_iff, hfq']
    decide
  · rw [get_graphics_family_def, hfq', hlen, if_neg (by decide)]

/-- The scan, started at any index whose `i32` image is not `-1`, on a
list whose first graphics-capable family is at relative position `g`:
it never examines a family past position `g`, so no bound on the list's
length is needed — only that the absolute index `i + g` itself does not
wrap to `-1`. -/
lemma findQueueFamiliesAux_new_first (l : List Bool) :
    ∀ i g : Nat, l.findIdx? (fun b => b) = some g → i + g < 2 ^ 32 - 1 →
      findQueueFamiliesAux QueueFamilyIndices.new i l =
        ({ graphics_family := i32ofNat (i + g) }, g + 1) := by
  induction l with
  | nil =>
    intro i g hfi _
    rw [List.findIdx?_nil] at hfi
    exact absurd hfi (by simp)
  | cons b rest ih =>
    intro i g hfi hbound
    cases b with
    | true =>
      rw [findIdx?_cons_zero] at hfi
      have hg0 : g = 0 := by simp at hfi; omega
      subst hg0
      have hne : i32ofNat (i + 0) ≠ -1 := i32ofNat_ne_neg_one (by omega)
      have hcomp : QueueFamilyIndices.is_complete
          { graphics_family := i32ofNat i } = true := by
        rw [is_complete_iff]
        simpa using hne
      simp [findQueueFamiliesAux, hcomp]
    | false =>
      rw [findIdx?_cons_zero] at hfi
      have hfi' : (rest.findIdx? (fun b => b)).map (· + 1) = some g := by
        simpa using hfi
      cases hr : rest.findIdx? (fun b => b) with
      | none => rw [hr] at hfi'; simp at hfi'
      | some g' =>
        rw [hr] at hfi'
        have hg : g = g' + 1 := by simp at hfi'; omega
        subst hg
        have ihh := ih (i + 1) g' hr (by omega)
        have harith : i + 1 + g' = i + (g' + 1) := by omega
        rw [harith] at ihh
        simp [findQueueFamiliesAux, new_not_complete, ihh]

/-- `find_queue_families` on a device whose first graphics-capable family
index is `g`, for any `g` below the `i32` wrap point — no bound on the
device's total family count. -/
lemma find_queue_families_first {d : PhysicalDeviceQF} {g : Nat}
    (hfi : d.findIdx? (fun b => b) = some g) (hg : g < 2 ^ 32 - 1) :
    find_queue_families d = { graphics_family := i32ofNat g } := by
  unfold find_queue_families findQueueFamiliesCounted
  rw [findQueueFamiliesAux_new_first d 0 g hfi (by omega)]
  norm_num

/-- Claim C10 amended: for every physical device with at least one
graphics-capable queue family whose first graphics-capable family index
`g` is below `2^31` (in particular whenever the device has at most `2^31`
families) — with no restriction on the device's total family count —
`get_graphics_family_from_physical_device` succeeds: the recorded
`graphics_family` is the first graphics index itself (non-negative), the
`i32`-to-`usize` cast is lossless, and the `nth` lookup returns a value,
so the unwrap's panic branch is unreachable. -/
theorem c10_amended_unwrap_safe (d : PhysicalDeviceQF) (g : Nat)
    (hfi : d.findIdx? (fun b => b) = some g) (hg31 : g < 2 ^ 31) :
    (find_queue_families d).graphics_family = (g : Int) ∧
    0 ≤ (find_queue_families d).graphics_family ∧
    usizeOfI32 ((g : Nat) : Int) = g ∧
    get_graphics_family_from_physical_device d = some g := by
  have hg32 : g < 2 ^ 32 - 1 := by omega
  have hg_lt : g < d.length := findIdx?_lt_length hfi
  have hfq := find_queue_families_first hfi hg32
  have hi32 : i32ofNat g = (g : Int) := i32ofNat_of_lt hg31
  have husize : usizeOfI32 ((g : Nat) : Int) = g := by
    unfold usizeOfI32
    rw [Int.emod_eq_of_lt (by positivity) (by exact_mod_cast by omega : (g : Int) < 2 ^ 64)]
    exact Int.toNat_natCast g
  have hfq' : (find_queue_families d).graphics_family = (g : Int) := by
    rw [hfq, hi32]
  refine ⟨hfq', ?_, husize, ?_⟩
  · rw [hfq']; positivity
  · rw [get_graphics_family_def, hfq', husize, if_pos hg_lt]

/-- Claim C10 witness (for the amended claim): the device `[false, true]`,
whose first graphics-capable family index is 1. -/
theorem c10_witness :
    (([false, true] : PhysicalDeviceQF).findIdx? (fun b => b) = some 1) ∧
    ((1 : Nat) < 2 ^ 31) ∧
    ((find_queue_families [false, true]).graphics_family = ((1 : Nat) : Int) ∧
     0 ≤ (find_queue_families [false, true]).graphics_family ∧
     usizeOfI32 (((1 : Nat) : Nat) : Int) = 1 ∧
     get_graphics_family_from_physical_device [false, true] = some 1) :=
  ⟨by decide, by decide,
    c10_amended_unwrap_safe [false, true] 1 (by decide) (by decide)⟩

/-- Claim C3: with validation enabled at build time but the support check
false, `init_instance` takes the layer-free construction path (it requests
no validation layers instead of failing); and the support check is true
iff every name in `VALIDATION_LAYERS` appears in the driver's reported
layer list. -/
theorem c3_validation_fallback (driver_layers : List String)
    (win_required : InstanceExtensions)
    (h : check_validation_layer_support driver_layers = false) :
    (init_instance (ENABLE_VALIDATION_LAYERS true) driver_layers
        win_required).layers = [] ∧
    ∀ reported : List String,
      (check_validation_layer_support reported = true ↔
        ∀ l ∈ VALIDATION_LAYERS, reported.contains l = true) := by
  constructor
  · unfold init_instance
    rw [if_neg (by simp [ENABLE_VALIDATION_LAYERS, h])]
  · intro reported
    unfold check_validation_layer_support
    exact List.all_eq_true

/-- Claim C3 witness: the driver reports no layers at all. -/
theorem c3_witness :
    check_validation_layer_support [] = false ∧
    ((init_instance (ENABLE_VALIDATION_LAYERS true) []
        { ext_debug_report := false, others := ["VK_KHR_surface"] }).layers
      = [] ∧
    ∀ reported : List String,
      (check_validation_layer_support reported = true ↔
        ∀ l ∈ VALIDATION_LAYERS, reported.contains l = true)) :=
  ⟨by decide,
    c3_validation_fallback []
      { ext_debug_report := false, others := ["VK_KHR_surface"] } (by decide)⟩

/-- Claim C8: `get_required_extensions` always returns the windowing
layer's mandatory extension set, with the debug-reporting extension
additionally enabled iff validation is enabled at build time; it is a
total function (no failure path). The hypothesis records that the
windowing layer's own set does not already demand debug reporting. -/
theorem c8_required_extensions (debug_assertions : Bool)
    (win_required : InstanceExtensions)
    (h : win_required.ext_debug_report = false) :
    ((get_required_extensions (ENABLE_VALIDATION_LAYERS debug_assertions)
          win_required).ext_debug_report = true ↔ debug_assertions = true) ∧
    (get_required_extensions (ENABLE_VALIDATION_LAYERS debug_assertions)
        win_required).others = win_required.others ∧
    (debug_assertions = false →
      get_required_extensions (ENABLE_VALIDATION_LAYERS debug_assertions)
          win_required = win_required) := by
  cases debug_assertions <;>
    simp [get_required_extensions, ENABLE_VALIDATION_LAYERS, h]

/-- Claim C8 witness: a surface-only windowing requirement, debug build. -/
theorem c8_witness :
    ({ ext_debug_report := false, others := ["VK_KHR_surface"] } :
        InstanceExtensions).ext_debug_report = false ∧
    (((get_required_extensions (ENABLE_VALIDATION_LAYERS true)
          { ext_debug_report := false, others := ["VK_KHR_surface"] }).ext_debug_report
        = true ↔ (true : Bool) = true) ∧
    (get_required_extensions (ENABLE_VALIDATION_LAYERS true)
        { ext_debug_report := false, others := ["VK_KHR_surface"] }).others =
      ({ ext_debug_report := false, others := ["VK_KHR_surface"] } :
        InstanceExtensions).others ∧
    ((true : Bool) = false →
      get_required_extensions (ENABLE_VALIDATION_LAYERS true)
          { ext_debug_report := false, others := ["VK_KHR_surface"] } =
        { ext_debug_report := false, others := ["VK_KHR_surface"] })) :=
  ⟨rfl, c8_required_extensions true
    { ext_debug_report := false, others := ["VK_KHR_surface"] } rfl⟩

/-- Claim C6: `setup_debug_callback` returns `none` whenever the
build-time debug flag is off; with the flag on it subscribes exactly to
error, warning, performance-warning and debug messages (informational
excluded), and a driver rejection gives `none` (non-fatal) instead of a
failure. -/
theorem c6_debug_callback (driver_accepts : Bool) :
    setup_debug_callback (ENABLE_VALIDATION_LAYERS false) driver_accepts =
      none ∧
    setup_debug_callback (ENABLE_VALIDATION_LAYERS true) driver_accepts =
      (if driver_accepts then
        some { error := true, warning := true, performance_warning := true,
               information := false, debug := true }
      else none) := by
  cases driver_accepts <;> simp [setup_debug_callback, ENABLE_VALIDATION_LAYERS]

/-- Claim C7 counterexample: a run where the driver reports no layers (so
the validation-layer support check is false) but accepts the callback
registration. `setup_debug_callback` never consults
`check_validation_layer_support`, so a `DiagnosticsHandle` exists anyway,
contradicting the claim that support-check false forces `none`. -/
theorem c7_counterexample :
    check_validation_layer_support [] = false ∧
    setup_debug_callback (ENABLE_VALIDATION_LAYERS true) true =
      some { error := true, warning := true, performance_warning := true,
             information := false, debug := true } :=
  ⟨by decide, by decide⟩

/-- Claim C7 amended: a `DiagnosticsHandle` exists iff validation is
enabled at build time and the driver accepts the registration; the
validation-layer support check plays no role (the registration's result
does not depend on the driver's layer list). -/
theorem c7_amended_handle_condition (enable_validation_layers
    driver_accepts : Bool) :
    (setup_debug_callback enable_validation_layers driver_accepts).isSome =
      (enable_validation_layers && driver_accepts) := by
  cases enable_validation_layers <;> cases driver_accepts <;>
    simp [setup_debug_callback]

lemma create_logical_device_eq (devices : List PhysicalDeviceQF) (idx : Nat) :
    create_logical_device devices idx =
      match devices.get? idx with
      | none => none
      | some d =>
        match get_graphics_family_from_physical_device d with
        | none => none
        | some g =>
          some ({ physical_device_index := idx, features := [],
                  extensions := [], queue_requests := [(g, 1)] }, g) := by
  unfold create_logical_device
  cases devices.get? idx with
  | none => rfl
  | some d =>
    cases get_graphics_family_from_physical_device d with
    | none => rfl
    | some g => rfl

lemma get_graphics_family_some {d : PhysicalDeviceQF} {g : Nat}
    (h : get_graphics_family_from_physical_device d = some g) :
    g = usizeOfI32 (find_queue_families d).graphics_family ∧ g < d.length := by
  rw [get_graphics_family_def] at h
  by_cases hlt : usizeOfI32 (find_queue_families d).graphics_family < d.length
  · rw [if_pos hlt] at h
    have he := Option.some.inj h
    exact ⟨he.symm, he ▸ hlt⟩
  · rw [if_neg hlt] at h
    exact absurd h (by simp)

/-- Claim C4: `create_logical_device` re-resolves the physical device from
its enumeration index (`from_index` against the live instance),
re-derives the graphics family by the same `find_queue_families` scan used
during selection, requests exactly one queue from that family at priority
1.0, enables no device features and no device extensions, and returns the
first (and only) queue produced together with the device handle. -/
theorem c4_logical_device_request (devices : List PhysicalDeviceQF)
    (idx : Nat) :
    ∀ r q, create_logical_device devices idx = some (r, q) →
      r.physical_device_index = idx ∧
      ∃ d, devices.get? idx = some d ∧
        ∃ g, get_graphics_family_from_physical_device d = some g ∧
          g = usizeOfI32 (find_queue_families d).graphics_family ∧
          r.features = [] ∧ r.extensions = [] ∧
          r.queue_requests = [(g, 1)] ∧ q = g := by
  intro r q hrq
  rw [create_logical_device_eq] at hrq
  cases hd : devices.get? idx with
  | none => rw [hd] at hrq; simp at hrq
  | some d =>
    rw [hd] at hrq
    cases hg : get_graphics_family_from_physical_device d with
    | none => simp [hg] at hrq
    | some g =>
      simp only [hg, Option.some.injEq, Prod.mk.injEq] at hrq
      obtain ⟨hr, hq⟩ := hrq
      subst hr
      subst hq
      exact ⟨rfl, d, rfl, g, hg, (get_graphics_family_some hg).1, rfl, rfl,
        rfl, rfl⟩

/-- Claim C4 witness: one device with graphics support at family 1. -/
theorem c4_witness :
    ({ physical_device_index := 0, features := [], extensions := [],
       queue_requests := [(1, 1)] } :
        LogicalDeviceRequest).physical_device_index = 0 ∧
    ∃ d, ([[false, true]] : List PhysicalDeviceQF).get? 0 = some d ∧
      ∃ g, get_graphics_family_from_physical_device d = some g ∧
        g = usizeOfI32 (find_queue_families d).graphics_family ∧
        ({ physical_device_index := 0, features := [], extensions := [],
           queue_requests := [(1, 1)] } : LogicalDeviceRequest).features =
          [] ∧
        ({ physical_device_index := 0, features := [], extensions := [],
           queue_requests := [(1, 1)] } : LogicalDeviceRequest).extensions =
          [] ∧
        ({ physical_device_index := 0, features := [], extensions := [],
           queue_requests := [(1, 1)] } :
            LogicalDeviceRequest).queue_requests = [(g, 1)] ∧
        1 = g :=
  c4_logical_device_request [[false, true]] 0
    { physical_device_index := 0, features := [], extensions := [],
      queue_requests := [(1, 1)] } 1 (by decide)

lemma pollEventsStep_eq (batch : List WinEvent) :
    ∀ done : Bool, pollEventsStep batch done =
      (done || batch.contains WinEvent.closeRequested) := by
  induction batch with
  | nil => intro done; simp [pollEventsStep]
  | cons e rest ih =>
    intro done
    have hstep : pollEventsStep (e :: rest) done =
        pollEventsStep rest
          (if e = WinEvent.closeRequested then true else done) := rfl
    rw [hstep, ih]
    cases e with
    | closeRequested => simp [List.contains_cons]
    | other t =>
      have hne : (WinEvent.closeRequested == WinEvent.other t) = false := rfl
      simp [List.contains_cons, hne]

lemma main_loop_eq (batches : List (List WinEvent)) :
    main_loop batches =
      batches.findIdx? (fun b => b.contains WinEvent.closeRequested) := by
  induction batches with
  | nil => rfl
  | cons b rest ih =>
    rw [findIdx?_cons_zero]
    simp only [main_loop]
    rw [pollEventsStep_eq]
    cases hc : b.contains WinEvent.closeRequested with
    | true => simp [hc]
    | false => simp [hc, ih]

/-- Claim C5: the main event loop returns exactly at the first poll
iteration whose drained batch contains a close-requested event — never at
an earlier one; every non-close event leaves the `done` flag (the loop's
only state) unchanged; and if no batch ever contains a close request the
loop never returns (no way back out of / into the loop body once the
close signal is seen: the function has returned). -/
theorem c5_main_loop_close (batches : List (List WinEvent)) :
    (∀ batch done, pollEventsStep batch done =
        (done || batch.contains WinEvent.closeRequested))
    ∧ (∀ k, main_loop batches = some k →
        ∃ b, batches.get? k = some b ∧
          b.contains WinEvent.closeRequested = true ∧
          ∀ j, j < k → ∀ c, batches.get? j = some c →
            c.contains WinEvent.closeRequested = false)
    ∧ (main_loop batches = none ↔
        ∀ b ∈ batches, b.contains WinEvent.closeRequested = false) := by
  refine ⟨fun batch done => pollEventsStep_eq batch done, ?_, ?_⟩
  · intro k hk
    rw [main_loop_eq] at hk
    exact findIdx?_some_spec _ _ k hk
  · rw [main_loop_eq]
    exact List.findIdx?_eq_none_iff

/-- Claim C5 witness: a close request arrives in the second batch, after a
batch of discarded events; the loop returns at iteration 1. -/
theorem c5_witness :
    main_loop [[WinEvent.other 0], [WinEvent.other 1,
      WinEvent.closeRequested]] = some 1 ∧
    ∃ b, ([[WinEvent.other 0], [WinEvent.other 1, WinEvent.closeRequested]] :
          List (List WinEvent)).get? 1 = some b ∧
      b.contains WinEvent.closeRequested = true ∧
      ∀ j, j < 1 → ∀ c,
        ([[WinEvent.other 0], [WinEvent.other 1, WinEvent.closeRequested]] :
          List (List WinEvent)).get? j = some c →
        c.contains WinEvent.closeRequested = false :=
  ⟨by decide,
    (c5_main_loop_close [[WinEvent.other 0], [WinEvent.other 1,
      WinEvent.closeRequested]]).2.1 1 (by decide)⟩

/-- Claim C9 (code behaviour at the divergence): `init_window` creates the
`"Vulkan"` 800x600 window, but the built `Window` is bound to the local
`_window_builder` and dropped when `init_window` returns — only the
`EventsLoop` is returned and retained by `HelloTriangleApp` (which has no
window field). The window is therefore NOT held by the application until
teardown, contradicting the claim. -/
theorem c9_window_dropped :
    init_window.created_window =
      { title := "Vulkan", width := WIDTH, height := HEIGHT } ∧
    init_window.dropped_at_return = [init_window.created_window] ∧
    init_window.returned = { id := 0 } :=
  ⟨rfl, rfl, rfl⟩

end RustVulkan
